import Mathlib

/-
Shallow embedding of src/bayesian_regression.py (class BayesianRegression).

Numbers are modelled by the rationals.  The external linear-algebra
collaborators (numpy dense matrix and vector arithmetic) are translated to
Mathlib matrices over the rationals; the SVD routine np.linalg.svd, which the
specification treats as an external collaborator, is a parameter of the
construction.  Fallible Python computations are modelled with Except over the
Python exception kinds that the source can raise, together with the error
kinds named by the specification, so that statements can compare them.
-/

open Matrix

namespace BayesReg

/-- Error kinds: the Python exceptions the source can raise, together with the
error kinds named by the specification (ShapeError, InvalidArgument,
NumericalError, NotFittedError). -/
inductive PyErr where
  | attributeError
  | nameError
  | zeroDivisionError
  | shapeError
  | invalidArgument
  | numericalError
  | notFittedError
  deriving DecidableEq, Repr

/-- Instance state of a BayesianRegression object after construction.
Python stores the centered design matrix X (n rows, m features), the centered
response Y (length p; the constructor never compares p with n), the removed
means, the cached economy-size factorization (u, d, v) as returned by
np.linalg.svd with full_matrices = False (v is the third factor, the row
factor, so the design matrix equals u * diagonal d * v), the convergence
threshold, and the fields alpha, beta, w_mu, w_beta, all initialized by
the constructor to zero (Python ints; the zero vector and zero matrix stand
for the scalar zeros stored into the weight fields). -/
structure Model (n m k p : ℕ) where
  X : Matrix (Fin n) (Fin m) ℚ
  Y : Fin p → ℚ
  mu_X : Fin m → ℚ
  mu_Y : ℚ
  u : Matrix (Fin n) (Fin k) ℚ
  d : Fin k → ℚ
  v : Matrix (Fin k) (Fin m) ℚ
  thresh : ℚ
  alpha : ℚ
  beta : ℚ
  w_mu : Fin m → ℚ
  w_beta : Matrix (Fin m) (Fin m) ℚ
  deriving DecidableEq

/-- Embedding of the matrix branch of the static method _center: subtract the
per-column mean (np.mean with axis 0) and return the centered matrix together
with the removed mean vector. -/
def center {n m : ℕ} (X : Matrix (Fin n) (Fin m) ℚ) :
    Matrix (Fin n) (Fin m) ℚ × (Fin m → ℚ) :=
  let mu : Fin m → ℚ := fun j => (∑ i, X i j) / n
  (Matrix.of fun i j => X i j - mu j, mu)

/-- Embedding of the vector branch of the static method _center: subtract the
overall mean and return the centered vector together with the removed mean. -/
def centerVec {p : ℕ} (y : Fin p → ℚ) : (Fin p → ℚ) × ℚ :=
  let mu : ℚ := (∑ i, y i) / p
  (fun i => y i - mu, mu)

/-- State assembled by the constructor from the centered data, the removed
means, the threshold and the factorization result: alpha, beta, w_mu and
w_beta are all set to zero. -/
def initModel {n m k p : ℕ} (Xc : Matrix (Fin n) (Fin m) ℚ) (muX : Fin m → ℚ)
    (Yc : Fin p → ℚ) (muY : ℚ) (thresh : ℚ)
    (udv : Matrix (Fin n) (Fin k) ℚ × (Fin k → ℚ) × Matrix (Fin k) (Fin m) ℚ) :
    Model n m k p :=
  ⟨Xc, Yc, muX, muY, udv.1, udv.2.1, udv.2.2, thresh, 0, 0, fun _ => 0, 0⟩

/-- Embedding of the constructor: centers X, centers Y, runs the external
factorization routine on the centered X, and stores the result with alpha,
beta, w_mu, w_beta zeroed.  The source performs no comparison of the row
counts of X and Y; the only way construction can fail is a failure of the
external factorization routine, which propagates. -/
def construct {n m k p : ℕ}
    (svd : Matrix (Fin n) (Fin m) ℚ →
      Except PyErr (Matrix (Fin n) (Fin k) ℚ × (Fin k → ℚ) × Matrix (Fin k) (Fin m) ℚ))
    (X : Matrix (Fin n) (Fin m) ℚ) (Y : Fin p → ℚ) (thresh : ℚ) :
    Except PyErr (Model n m k p) :=
  match svd (center X).1 with
  | .error e => .error e
  | .ok udv =>
      .ok (initModel (center X).1 (center X).2 (centerVec Y).1 (centerVec Y).2 thresh udv)

/-- Embedding of _weights_posterior_params.  The precision is computed by the
numpy expression beta*np.dot(X.T,X)+alpha, in which the scalar alpha is
broadcast onto every entry of the matrix, and the mean is
(v.T * diagonal (d/(d^2+alpha/beta))) applied to (u.T applied to Y).
The source also stores the diagonal on the instance; nothing else reads that
attribute, so it stays local here. -/
def weights_posterior_params {n m k : ℕ} (s : Model n m k n) (alpha beta : ℚ) :
    (Fin m → ℚ) × Matrix (Fin m) (Fin m) ℚ :=
  let precision : Matrix (Fin m) (Fin m) ℚ :=
    Matrix.of fun i j => beta * (s.Xᵀ * s.X) i j + alpha
  let diag : Fin k → ℚ := fun j => s.d j / ((s.d j) ^ 2 + alpha / beta)
  let p1 := s.vᵀ * Matrix.diagonal diag
  let p2 := s.uᵀ *ᵥ s.Y
  (p1 *ᵥ p2, precision)

/-- Embedding of _pred_dist_params.  The predictive mean is x applied to w_mu;
the variances divide by beta after forming S = v.T * diagonal (1/(d^2+alpha/beta)) * v.
The only reachable call site passes the alpha and beta stored by the
constructor, which are the Python integers zero until a fit succeeds, and the
integer division alpha/beta then raises ZeroDivisionError; the embedding
raises exactly when beta is zero.  The parameter w_precision is accepted and
ignored, as in the source. -/
def pred_dist_params {n m k q : ℕ} (s : Model n m k n) (alpha beta : ℚ)
    (x : Matrix (Fin q) (Fin m) ℚ) (w_mu : Fin m → ℚ)
    (w_precision : Matrix (Fin m) (Fin m) ℚ) :
    Except PyErr ((Fin q → ℚ) × (Fin q → ℚ)) :=
  let mu_pred := x *ᵥ w_mu
  if beta = 0 then .error .zeroDivisionError
  else
    let dd : Fin k → ℚ := fun j => 1 / ((s.d j) ^ 2 + alpha / beta)
    let S := s.vᵀ * Matrix.diagonal dd * s.v
    let var_pred : Fin q → ℚ := fun i => (1 + x i ⬝ᵥ (S *ᵥ x i)) / beta
    .ok (mu_pred, var_pred)

/-- Embedding of predict: delegates to _pred_dist_params with the stored
alpha, beta, w_mu, w_beta.  The optional second argument, default None in the
source, is never read. -/
def predict {n m k q : ℕ} (s : Model n m k n) (X : Matrix (Fin q) (Fin m) ℚ)
    (Y : Option (Fin q → ℚ)) : Except PyErr ((Fin q → ℚ) × (Fin q → ℚ)) :=
  pred_dist_params s s.alpha s.beta X s.w_mu s.w_beta

/-- Locals carried across iterations of the loop in _evidence_approx: the
current alpha and beta, the Python local variable error (absent until the
first assignment inside the fixed-point branch; the EM branch assigns a
different local, err, and never binds error), and the accumulated list of
per-iteration log-likelihood values. -/
structure EvState (n : ℕ) where
  alpha : ℚ
  beta : ℚ
  error : Option (Fin n → ℚ)
  logLikes : List ℚ

/-- Posterior weight mean computed at the top of every iteration of
_evidence_approx (the E-step quantity): with d the squared singular values,
mu = (v.T * diagonal (singular values / (d + alpha/beta))) applied to
(u.T applied to y).  The response y is the parameter because the source line
np.dot(self.u.T, Y) resolves the free name Y, not the stored self.Y. -/
def postMean {n m k : ℕ} (s : Model n m k n) (alpha beta : ℚ) (y : Fin n → ℚ) :
    Fin m → ℚ :=
  let d : Fin k → ℚ := fun j => (s.d j) ^ 2
  let p1_mu := s.vᵀ * Matrix.diagonal (fun j => s.d j / (d j + alpha / beta))
  let p2_mu := s.uᵀ *ᵥ y
  p1_mu *ᵥ p2_mu

/-- Fixed-point branch of the iteration (the body guarded by
method == fixed-point): gamma from the old alpha and beta, then the new
alpha, the residual error = self.Y - X applied to mu (this branch does use
the stored centered response), and the new beta.  Returns the new alpha, the
new beta and the residual vector. -/
def fpUpdate {n m k : ℕ} (s : Model n m k n) (alpha beta : ℚ) (mu : Fin m → ℚ) :
    ℚ × ℚ × (Fin n → ℚ) :=
  let d : Fin k → ℚ := fun j => (s.d j) ^ 2
  let gamma : ℚ := ∑ j, beta * d j / (beta * d j + alpha)
  let alpha1 := gamma / (mu ⬝ᵥ mu)
  let error : Fin n → ℚ := fun i => s.Y i - (s.X *ᵥ mu) i
  let beta1 := ((n : ℚ) - gamma) / (error ⬝ᵥ error)
  (alpha1, beta1, error)

/-- EM branch of the iteration (the M-step): the new alpha from the old alpha
and beta, the residual err = Y - X applied to mu in which the source again
resolves the free name Y (the parameter y here), and the new beta from the
old beta and the just-updated alpha.  Returns the new alpha, the new beta and
the residual err. -/
def emUpdate {n m k : ℕ} (s : Model n m k n) (alpha beta : ℚ) (mu : Fin m → ℚ)
    (y : Fin n → ℚ) : ℚ × ℚ × (Fin n → ℚ) :=
  let d : Fin k → ℚ := fun j => (s.d j) ^ 2
  let alpha1 := (m : ℚ) / (mu ⬝ᵥ mu + ∑ j, 1 / (beta * d j + alpha))
  let err : Fin n → ℚ := fun i => y i - (s.X *ᵥ mu) i
  let beta1 := (n : ℚ) / (err ⬝ᵥ err + ∑ j, d j / (beta * d j + alpha1))
  (alpha1, beta1, err)

/-- Per-iteration log-likelihood (constants omitted), computed from the
post-update alpha and beta, the iteration mean and the vector bound to the
local variable error:
m/2*log alpha + n/2*log beta - 1/2*sum (log (beta*d+alpha))
- alpha/2*(mu.mu) - beta/2*(error.error).  The logarithm is the external
np.log, a parameter of the embedding. -/
def logEvidence {n m k : ℕ} (log : ℚ → ℚ) (s : Model n m k n) (alpha beta : ℚ)
    (mu : Fin m → ℚ) (error : Fin n → ℚ) : ℚ :=
  let d : Fin k → ℚ := fun j => (s.d j) ^ 2
  let normaliser :=
    (m : ℚ) / 2 * log alpha + (n : ℚ) / 2 * log beta
      - 1 / 2 * ∑ j, log (beta * d j + alpha)
  normaliser - alpha / 2 * (mu ⬝ᵥ mu) - beta / 2 * (error ⬝ᵥ error)

/-- One iteration of the loop in _evidence_approx.  The mean computation
resolves the free module-level name Y (globalY; a NameError if no such global
is bound).  The fixed-point branch binds the local error; the EM branch binds
only err, leaving error as it was; an unrecognized method leaves alpha, beta
and error all unchanged.  The log-likelihood line then reads the local error,
raising NameError when it has never been bound. -/
def evidenceStep {n m k : ℕ} (log : ℚ → ℚ) (s : Model n m k n)
    (globalY : Option (Fin n → ℚ)) (method : String) (st : EvState n) :
    Except PyErr (EvState n) :=
  match globalY with
  | none => .error .nameError
  | some y =>
    let mu := postMean s st.alpha st.beta y
    let next : ℚ × ℚ × Option (Fin n → ℚ) :=
      if method = "fixed-point" then
        let r := fpUpdate s st.alpha st.beta mu
        (r.1, r.2.1, some r.2.2)
      else if method = "EM" then
        let r := emUpdate s st.alpha st.beta mu y
        (r.1, r.2.1, st.error)
      else
        (st.alpha, st.beta, st.error)
    match next.2.2 with
    | none => .error .nameError
    | some e =>
        .ok ⟨next.1, next.2.1, some e,
          st.logLikes ++ [logEvidence log s next.1 next.2.1 mu e]⟩

/-- The loop for i in range(max_iter) of _evidence_approx, with the break on
convergence: once at least two log-likelihood values exist, stop when the
latest increase is below the threshold.  The first argument of the recursion
is the remaining iteration count, the second the current index i. -/
def evidenceLoop {n m k : ℕ} (log : ℚ → ℚ) (s : Model n m k n)
    (globalY : Option (Fin n → ℚ)) (method : String) :
    ℕ → ℕ → EvState n → Except PyErr (EvState n)
  | 0, _, st => .ok st
  | fuel + 1, i, st =>
    match evidenceStep log s globalY method st with
    | .error e => .error e
    | .ok st1 =>
      if 1 ≤ i then
        match st1.logLikes.reverse with
        | last :: prev :: _ =>
            if last - prev < s.thresh then .ok st1
            else evidenceLoop log s globalY method fuel (i + 1) st1
        | _ => evidenceLoop log s globalY method fuel (i + 1) st1
      else evidenceLoop log s globalY method fuel (i + 1) st1

/-- Embedding of _evidence_approx: run the loop from the randomly drawn
initial hyperparameters ab0 (the np.random.random(2) draw), with the local
error unbound and no log-likelihood values, then write the final alpha and
beta back into the instance.  A raised exception propagates before the
write-back. -/
def evidence_approx {n m k : ℕ} (log : ℚ → ℚ) (globalY : Option (Fin n → ℚ))
    (ab0 : ℚ × ℚ) (s : Model n m k n) (max_iter : ℕ) (method : String) :
    Except PyErr (Model n m k n) :=
  match evidenceLoop log s globalY method max_iter 0 ⟨ab0.1, ab0.2, none, []⟩ with
  | .error e => .error e
  | .ok st =>
      .ok ⟨s.X, s.Y, s.mu_X, s.mu_Y, s.u, s.d, s.v, s.thresh,
           st.alpha, st.beta, s.w_mu, s.w_beta⟩

/-- Names of the methods defined by class BayesianRegression, in source
order.  Instance attributes written by the constructor are X, mu_X, Y, mu_Y,
thresh, u, d, v, alpha, beta, w_mu, w_beta; none of them shadows a method
name. -/
def classMethods : List String :=
  ["_center", "_weights_posterior_params", "_pred_dist_params",
   "_evidence_approx", "fit", "predict", "predict_mean"]

/-- Embedding of fit.  Its first statement is a call of the attribute
_fixed_point_evidence_approx on self; the class defines no attribute of that
name (see classMethods; the intended target _evidence_approx exists under a
different name), so Python raises AttributeError before the evidence loop or
the posterior computation can run.  The branch guarded by a successful
attribute lookup is unreachable. -/
def fit {n m k : ℕ} (s : Model n m k n) (method : String) (iterations : ℕ) :
    Except PyErr (Model n m k n) :=
  if classMethods.contains ("_fixed_point_evidence_approx") then
    .ok s
  else
    .error .attributeError

/-! Concrete data used by witnesses and counterexamples. -/

/-- Concrete training design matrix with two rows and one feature. -/
def X0 : Matrix (Fin 2) (Fin 1) ℚ := !![1; 3]

/-- Concrete response vector of matching length two. -/
def Y0 : Fin 2 → ℚ := ![1, 5]

/-- Concrete response vector of length three, mismatching the two rows of X0. -/
def Y1 : Fin 3 → ℚ := ![1, 2, 3]

/-- Concrete stand-in for the external factorization routine on 2 x 1 input:
returns the matrix itself as the left factor, the singular value one and the
trivial right factor, so that u * diagonal d * v equals the input. -/
def svdA : Matrix (Fin 2) (Fin 1) ℚ →
    Except PyErr (Matrix (Fin 2) (Fin 1) ℚ × (Fin 1 → ℚ) × Matrix (Fin 1) (Fin 1) ℚ) :=
  fun A => .ok (A, ![1], !![1])

/-- The model state produced by constructing on X0 and Y0 with svdA: alpha,
beta, w_mu and w_beta are all zero, as on every freshly constructed model. -/
def fittedNone : Model 2 1 1 2 :=
  initModel (center X0).1 (center X0).2 (centerVec Y0).1 (centerVec Y0).2
    (1 / 100000) ((center X0).1, ![1], !![1])

/-- Concrete model state with two features, used to exhibit the off-diagonal
entries of the posterior precision and to evaluate the predictive formulas. -/
def M2 : Model 2 2 2 2 :=
  ⟨!![1, 0; 0, 1], ![1, -1], ![0, 0], 0, !![1, 0; 0, 1], ![1, 1],
   !![1, 0; 0, 1], 1 / 100000, 0, 0, fun _ => 0, 0⟩

/-! Theorems settling the claims. -/

/-- C1: the claim says fit runs the evidence approximation to convergence or
the iteration cap and then stores the posterior parameters, completing
successfully on well-formed data.  The code instead raises AttributeError on
every call, for every method string and every iteration cap, because its
first statement calls the nonexistent attribute _fixed_point_evidence_approx. -/
theorem fit_always_raises_attributeError {n m k : ℕ} (s : Model n m k n)
    (method : String) (iterations : ℕ) :
    fit s method iterations = .error .attributeError := rfl

/-- C2: the claim says every iteration computes the posterior mean, the
residuals and the log-evidence from the stored centered response.  The code
instead resolves the free module-level name Y in the mean computation: when
no such global is bound, every call of _evidence_approx that performs at
least one iteration raises NameError, for either method and any initial
hyperparameters, even though the stored centered response is present. -/
theorem evidence_approx_requires_global_Y {n m k : ℕ} (log : ℚ → ℚ)
    (ab0 : ℚ × ℚ) (s : Model n m k n) (max_iter : ℕ) (method : String)
    (h : 1 ≤ max_iter) :
    evidence_approx log none ab0 s max_iter method = .error .nameError := by
  cases max_iter with
  | zero => exact absurd h (by decide)
  | succ fuel => rfl

/-- Witness for C2 at a concrete model, method and iteration cap. -/
theorem evidence_approx_requires_global_Y_witness :
    evidence_approx (fun _ => 0) none (1 / 2, 1 / 3) M2 1 ("EM")
      = .error .nameError :=
  evidence_approx_requires_global_Y (fun _ => 0) (1 / 2, 1 / 3) M2 1 ("EM")
    (by decide)

/-- C3: the claim says the posterior precision is beta times X transpose X
plus alpha times the identity, alpha added on the diagonal only.  The numpy
expression broadcasts alpha onto every entry: on the model M2 with alpha and
beta one, the code places the value one in the off-diagonal entry where the
claimed formula places zero, so the two matrices differ. -/
theorem posterior_precision_broadcasts_alpha :
    (weights_posterior_params M2 1 1).2 0 1 = 1
    ∧ ((1 : ℚ) • (M2.Xᵀ * M2.X) + (1 : ℚ) • (1 : Matrix (Fin 2) (Fin 2) ℚ)) 0 1 = 0
    ∧ (weights_posterior_params M2 1 1).2
        ≠ (1 : ℚ) • (M2.Xᵀ * M2.X) + (1 : ℚ) • (1 : Matrix (Fin 2) (Fin 2) ℚ) := by
  have h1 : (weights_posterior_params M2 1 1).2 0 1 = 1 := by
    simp [weights_posterior_params, M2, Matrix.mul_apply, Fin.sum_univ_succ]
  have h2 : ((1 : ℚ) • (M2.Xᵀ * M2.X) + (1 : ℚ) • (1 : Matrix (Fin 2) (Fin 2) ℚ)) 0 1 = 0 := by
    simp [M2, Matrix.mul_apply, Fin.sum_univ_succ, Matrix.one_apply]
  refine ⟨h1, h2, fun hc => ?_⟩
  rw [hc] at h1
  rw [h2] at h1
  exact absurd h1 (by norm_num)

/-- C4 (amended): construction performs no comparison of the row counts of X
and Y; whenever the external factorization of the centered X succeeds,
construction succeeds and stores its result, even when the length of Y
differs from the number of rows of X, so no ShapeError is ever raised. -/
theorem construct_ignores_row_mismatch {n m k p : ℕ}
    (svd : Matrix (Fin n) (Fin m) ℚ →
      Except PyErr (Matrix (Fin n) (Fin k) ℚ × (Fin k → ℚ) × Matrix (Fin k) (Fin m) ℚ))
    (X : Matrix (Fin n) (Fin m) ℚ) (Y : Fin p → ℚ) (t : ℚ)
    (udv : Matrix (Fin n) (Fin k) ℚ × (Fin k → ℚ) × Matrix (Fin k) (Fin m) ℚ)
    (hmis : p ≠ n) (hsvd : svd (center X).1 = .ok udv) :
    construct svd X Y t
      = .ok (initModel (center X).1 (center X).2 (centerVec Y).1 (centerVec Y).2 t udv) := by
  unfold construct
  rw [hsvd]

/-- Witness for C4 at the concrete mismatched pair X0 (two rows) and Y1
(three entries). -/
theorem construct_ignores_row_mismatch_witness :
    (3 : ℕ) ≠ 2
    ∧ construct svdA X0 Y1 1
        = .ok (initModel (center X0).1 (center X0).2 (centerVec Y1).1
            (centerVec Y1).2 1 ((center X0).1, ![1], !![1])) :=
  ⟨by decide,
   construct_ignores_row_mismatch svdA X0 Y1 1 ((center X0).1, ![1], !![1])
     (by decide) rfl⟩

/-- Counterexample for C4 as stated: constructing on X0 (two rows) and Y1
(three entries) does not fail with ShapeError; construction succeeds. -/
theorem construct_mismatch_no_shapeError :
    construct svdA X0 Y1 1 ≠ Except.error PyErr.shapeError := by
  intro hc
  rw [show construct svdA X0 Y1 1
      = Except.ok (initModel (center X0).1 (center X0).2 (centerVec Y1).1
          (centerVec Y1).2 1 ((center X0).1, ![1], !![1])) from rfl] at hc
  exact Except.noConfusion hc

/-- C5 (amended): on every model produced by construction on which no fit
has completed, predict fails, but with ZeroDivisionError rather than
NotFittedError: the constructor stores the Python integers zero into alpha
and beta and the predictive computation divides alpha by beta. -/
theorem predict_unfitted_raises_zeroDivision {n m k q : ℕ}
    (svd : Matrix (Fin n) (Fin m) ℚ →
      Except PyErr (Matrix (Fin n) (Fin k) ℚ × (Fin k → ℚ) × Matrix (Fin k) (Fin m) ℚ))
    (X : Matrix (Fin n) (Fin m) ℚ) (Y : Fin n → ℚ) (t : ℚ) (s : Model n m k n)
    (h : construct svd X Y t = .ok s)
    (Xq : Matrix (Fin q) (Fin m) ℚ) (Yq : Option (Fin q → ℚ)) :
    predict s Xq Yq = .error .zeroDivisionError := by
  have hb : s.beta = 0 := by
    unfold construct at h
    cases hsvd : svd (center X).1 with
    | error e => rw [hsvd] at h; exact absurd h (by simp)
    | ok udv =>
        rw [hsvd] at h
        have hs : initModel (center X).1 (center X).2 (centerVec Y).1
            (centerVec Y).2 t udv = s := by
          injection h
        rw [← hs]
        rfl
  unfold predict pred_dist_params
  rw [hb]
  rfl

/-- Witness for C5 at the concrete constructed model fittedNone. -/
theorem predict_unfitted_raises_zeroDivision_witness :
    predict fittedNone !![2] none = .error .zeroDivisionError :=
  predict_unfitted_raises_zeroDivision svdA X0 Y0 (1 / 100000) fittedNone rfl
    !![2] none

/-- Counterexample for C5 as stated: on the concrete constructed and
unfitted model, predict does not fail with NotFittedError (it fails with
ZeroDivisionError). -/
theorem predict_unfitted_not_notFittedError :
    predict fittedNone !![2] none ≠ Except.error PyErr.notFittedError := by
  intro hc
  rw [show predict fittedNone !![2] none = Except.error PyErr.zeroDivisionError
    from rfl] at hc
  exact absurd (Except.error.inj hc) (by decide)

/-- C6 (amended): calling fit with a method string other than EM and
fixed-point fails, but with AttributeError rather than InvalidArgument: no
method validation exists, and the call of the nonexistent attribute
_fixed_point_evidence_approx raises first. -/
theorem fit_unrecognized_method_raises_attributeError {n m k : ℕ}
    (s : Model n m k n) (method : String) (iterations : ℕ)
    (h1 : method ≠ "EM") (h2 : method ≠ "fixed-point") :
    fit s method iterations = .error .attributeError := rfl

/-- Witness for C6 at the concrete unrecognized method string foo. -/
theorem fit_unrecognized_method_witness :
    fit M2 ("foo") 100 = Except.error PyErr.attributeError :=
  fit_unrecognized_method_raises_attributeError M2 ("foo") 100 (by decide)
    (by decide)

/-- Counterexample for C6 as stated: with the unrecognized method foo, fit
does not fail with InvalidArgument (it fails with AttributeError). -/
theorem fit_unrecognized_method_not_invalidArgument :
    fit M2 ("foo") 100 ≠ Except.error PyErr.invalidArgument := by
  intro hc
  rw [show fit M2 ("foo") 100 = Except.error PyErr.attributeError from rfl] at hc
  exact absurd (Except.error.inj hc) (by decide)

/-- C7: in the fixed-point branch, given the current alpha, beta and the
current posterior mean, the new alpha equals gamma divided by the squared
norm of the mean and the new beta equals n minus gamma divided by the sum of
squared residuals between the stored centered response and the design matrix
applied to the mean, where gamma sums beta d squared over beta d squared
plus alpha across the retained singular values. -/
theorem fpUpdate_matches_spec {n m k : ℕ} (s : Model n m k n)
    (alpha beta : ℚ) (mu : Fin m → ℚ) :
    (fpUpdate s alpha beta mu).1
        = (∑ j, beta * (s.d j) ^ 2 / (beta * (s.d j) ^ 2 + alpha))
            / (∑ i, (mu i) ^ 2)
    ∧ (fpUpdate s alpha beta mu).2.1
        = ((n : ℚ) - ∑ j, beta * (s.d j) ^ 2 / (beta * (s.d j) ^ 2 + alpha))
            / (∑ i, (s.Y i - ∑ j, s.X i j * mu j) ^ 2) := by
  constructor <;> simp [fpUpdate, Matrix.dotProduct, Matrix.mulVec, sq]

/-- C8: the claim says both variants record the log-evidence of the same
iteration from that iteration's residuals.  In the EM variant the residuals
are bound to the local err while the log-evidence line reads the never-bound
local error, so every call of _evidence_approx with method EM that performs
at least one iteration raises NameError at its first log-evidence
computation, for any data, any bound global Y, any initial hyperparameters
and any logarithm oracle. -/
theorem em_first_iteration_raises_nameError {n m k : ℕ} (log : ℚ → ℚ)
    (y : Fin n → ℚ) (ab0 : ℚ × ℚ) (s : Model n m k n) (max_iter : ℕ)
    (h : 1 ≤ max_iter) :
    evidence_approx log (some y) ab0 s max_iter ("EM") = .error .nameError := by
  cases max_iter with
  | zero => exact absurd h (by decide)
  | succ fuel => rfl

/-- Witness for C8 at a concrete model, global response, seed and cap. -/
theorem em_first_iteration_raises_nameError_witness :
    evidence_approx (fun _ => 0) (some ![1, -1]) (1 / 2, 1 / 3) M2 100 ("EM")
      = .error .nameError :=
  em_first_iteration_raises_nameError (fun _ => 0) ![1, -1] (1 / 2, 1 / 3) M2
    100 (by decide)

/-- C9: whenever beta is nonzero (so the division guard passes), the
predictive computation returns, indexed the same way as the query rows, the
mean row dot posterior mean and the variance one plus the quadratic form of
the row in S, divided by beta, where S is v transpose times the diagonal of
the reciprocals of d squared plus alpha over beta, times v. -/
theorem pred_dist_params_matches_spec {n m k q : ℕ} (s : Model n m k n)
    (alpha beta : ℚ) (x : Matrix (Fin q) (Fin m) ℚ) (w_mu : Fin m → ℚ)
    (w_precision : Matrix (Fin m) (Fin m) ℚ) (h : beta ≠ 0) :
    pred_dist_params s alpha beta x w_mu w_precision =
      .ok (fun i => ∑ j, x i j * w_mu j,
           fun i => (1 + ∑ j, ∑ l, x i j *
               ((s.vᵀ * Matrix.diagonal (fun t => 1 / ((s.d t) ^ 2 + alpha / beta)) * s.v :
                   Matrix (Fin m) (Fin m) ℚ) j l)
               * x i l) / beta) := by
  have key : ∀ (S : Matrix (Fin m) (Fin m) ℚ) (r : Fin m → ℚ),
      r ⬝ᵥ (S *ᵥ r) = ∑ j, ∑ l, r j * S j l * r l := by
    intro S r
    simp [Matrix.dotProduct, Matrix.mulVec, Finset.mul_sum, mul_assoc]
  have hS : pred_dist_params s alpha beta x w_mu w_precision =
      .ok (x *ᵥ w_mu,
           fun i => (1 + x i ⬝ᵥ
             ((s.vᵀ * Matrix.diagonal (fun t => 1 / ((s.d t) ^ 2 + alpha / beta)) * s.v :
                 Matrix (Fin m) (Fin m) ℚ) *ᵥ x i)) / beta) := by
    unfold pred_dist_params
    rw [if_neg h]
  rw [hS]
  refine congrArg Except.ok (Prod.ext ?_ ?_)
  · funext i
    simp [Matrix.mulVec, Matrix.dotProduct]
  · funext i
    dsimp only
    rw [key]

/-- Witness for C9 at the concrete model M2 with alpha and beta one. -/
theorem pred_dist_params_matches_spec_witness :
    pred_dist_params M2 1 1 !![1, 2] ![1, 1] 0 =
      .ok (fun i => ∑ j, (!![1, 2] : Matrix (Fin 1) (Fin 2) ℚ) i j * ![1, 1] j,
           fun i => (1 + ∑ j, ∑ l, (!![1, 2] : Matrix (Fin 1) (Fin 2) ℚ) i j *
               ((M2.vᵀ * Matrix.diagonal (fun t => 1 / ((M2.d t) ^ 2 + 1 / 1)) * M2.v :
                   Matrix (Fin 2) (Fin 2) ℚ) j l)
               * (!![1, 2] : Matrix (Fin 1) (Fin 2) ℚ) i l) / 1) :=
  pred_dist_params_matches_spec M2 1 1 !![1, 2] ![1, 1] 0 (by norm_num)

/-- C10: predict never reads its optional second argument: on every model
state and query matrix, any two values of the optional argument give
identical results. -/
theorem predict_ignores_optional_Y {n m k q : ℕ} (s : Model n m k n)
    (X : Matrix (Fin q) (Fin m) ℚ) (y1 y2 : Option (Fin q → ℚ)) :
    predict s X y1 = predict s X y2 := rfl

end BayesReg
